import Mathlib

/-!
Verification model of the Hulios transparent-Tor-routing tool.

The development shallowly embeds the two core modules of the program:

* `src/iptables.rs` — the Firewall Controller: `apply_rules`, `flush_rules`,
  `run_iptables`, `run_ip6tables`.  Every external firewall-tool invocation
  is modelled as a `Cmd` (backend plus argument vector, copied verbatim from
  the source).  A small interpreter `applyCmd` gives the effect of a command
  on an abstract firewall state (`FwState`): commands are assumed to take
  effect at the kernel level; the Rust-level exit-status handling of
  `run_iptables` (log-and-continue) is modelled separately by
  `run_iptables` / `execCmds` over per-invocation outcomes.

* `src/engine.rs` — the Enforcement Orchestrator and Resolver Controller:
  `start`, `stop`, `restart`, `take_dns_ownership`, `restore_dns`,
  `is_tor_running`, `stop_tor_service`, `neutralize_system_resolver`,
  `restore_system_resolver`.  The ambient machine is a `World` record
  (relevant files, service flags, the supervised tor process, firewall
  state, and the trace of emitted desktop alerts); nondeterministic
  facts (uid, spawn success, whether tor survives the bootstrap wait,
  write failures) are an `Env` record.

Rust's `str::trim` and `parse::<i32>` are embedded as the structural
functions `strTrim` and `parseI32` so that all definitions evaluate
inside the kernel.
-/

namespace Hulios

/-! ### String helpers: Rust `str::trim` and `str::parse::<i32>` -/

/-- Digit accumulator for `parseI32`: consumes decimal digits, failing on any
non-digit character (Rust `parse` accepts digits only after the sign). -/
def digitsValGo : List Char → Nat → Option Nat
  | [], acc => some acc
  | c :: cs, acc => if c.isDigit then digitsValGo cs (acc * 10 + (c.toNat - 48)) else none

/-- Value of a nonempty all-digit character list; `none` on empty input or on
any non-digit. -/
def digitsVal : List Char → Option Nat
  | [] => none
  | c :: cs => digitsValGo (c :: cs) 0

/-- Rust `str::trim`: strip leading and trailing whitespace. -/
def strTrim (s : String) : String :=
  String.mk (((s.data.dropWhile Char.isWhitespace).reverse.dropWhile Char.isWhitespace).reverse)

/-- Rust `str::parse::<i32>`: optional sign, one or more decimal digits,
within the i32 range. -/
def parseI32 (s : String) : Option Int :=
  let p : Int × List Char :=
    match s.data with
    | '+' :: rest => (1, rest)
    | '-' :: rest => (-1, rest)
    | rest => (1, rest)
  match digitsVal p.2 with
  | none => none
  | some n =>
    let v : Int := p.1 * Int.ofNat n
    if -2147483648 ≤ v ∧ v ≤ 2147483647 then some v else none

/-! ### Firewall state and command interpreter (src/iptables.rs) -/

/-- Which external firewall backend an invocation targets: `iptables`,
`ip6tables`, `iptables-legacy` or `ip6tables-legacy`. -/
inductive Backend
  | v4
  | v6
  | v4legacy
  | v6legacy
deriving DecidableEq

/-- One external firewall-tool invocation: backend plus the exact argument
vector passed in the source. -/
structure Cmd where
  backend : Backend
  args : List String
deriving DecidableEq

/-- A netfilter chain: its default policy and its ordered rule list (each
rule kept as the argument suffix that was appended). -/
structure Chain where
  policy : String
  rules : List (List String)
deriving DecidableEq

/-- The chains of one backend that the program ever touches: filter
INPUT/OUTPUT/FORWARD and nat OUTPUT. -/
structure FwTables where
  filterInput : Chain
  filterOutput : Chain
  filterForward : Chain
  natOutput : Chain
deriving DecidableEq

/-- Full firewall state across the four backends. -/
structure FwState where
  v4 : FwTables
  v6 : FwTables
  v4legacy : FwTables
  v6legacy : FwTables
deriving DecidableEq

/-- Replace a chain's default policy (`-P`). -/
def Chain.setPolicy (c : Chain) (p : String) : Chain :=
  ⟨p, c.rules⟩

/-- Append a rule at the end of a chain (`-A`). -/
def Chain.append (c : Chain) (r : List String) : Chain :=
  ⟨c.policy, c.rules ++ [r]⟩

/-- Remove all rules of a chain (`-F`), keeping its policy. -/
def Chain.clear (c : Chain) : Chain :=
  ⟨c.policy, []⟩

/-- Split a leading `-t TABLE` selector off an argument vector; the default
table is `filter`. -/
def splitTable : List String → String × List String
  | "-t" :: tb :: rest => (tb, rest)
  | args => ("filter", args)

/-- Apply a chain transformation at a (table, chain) address; unknown
addresses are untouched. -/
def FwTables.update (t : FwTables) (table chain : String) (f : Chain → Chain) : FwTables :=
  if table = "filter" then
    if chain = "INPUT" then { t with filterInput := f t.filterInput }
    else if chain = "OUTPUT" then { t with filterOutput := f t.filterOutput }
    else if chain = "FORWARD" then { t with filterForward := f t.filterForward }
    else t
  else if table = "nat" then
    if chain = "OUTPUT" then { t with natOutput := f t.natOutput } else t
  else t

/-- Effect of one argument vector on one backend's tables: `-P` sets a
policy, `-A` appends a rule, `-F` clears a chain. -/
def applyArgs (t : FwTables) (args : List String) : FwTables :=
  match splitTable args with
  | (tb, "-P" :: chain :: pol :: _) => t.update tb chain (fun c => c.setPolicy pol)
  | (tb, "-A" :: chain :: rule) => t.update tb chain (fun c => c.append rule)
  | (tb, "-F" :: chain :: _) => t.update tb chain Chain.clear
  | _ => t

/-- Effect of one invocation on the full firewall state. -/
def applyCmd (s : FwState) (c : Cmd) : FwState :=
  match c.backend with
  | Backend.v4 => { s with v4 := applyArgs s.v4 c.args }
  | Backend.v6 => { s with v6 := applyArgs s.v6 c.args }
  | Backend.v4legacy => { s with v4legacy := applyArgs s.v4legacy c.args }
  | Backend.v6legacy => { s with v6legacy := applyArgs s.v6legacy c.args }

/-- Run a list of invocations left to right. -/
def fwRun (s : FwState) (cmds : List Cmd) : FwState :=
  cmds.foldl applyCmd s

/-- Invocation sequence of `flush_rules` (src/iptables.rs lines 90-118),
verbatim from the source: reset v4 and v6 policies to ACCEPT, flush the
nat/filter OUTPUT and filter INPUT chains for both families, then flush the
legacy backends' nat and filter OUTPUT chains. -/
def flush_rules_trace : List Cmd :=
  [ ⟨Backend.v4, ["-P", "OUTPUT", "ACCEPT"]⟩,
    ⟨Backend.v4, ["-P", "INPUT", "ACCEPT"]⟩,
    ⟨Backend.v4, ["-P", "FORWARD", "ACCEPT"]⟩,
    ⟨Backend.v4, ["-t", "nat", "-F", "OUTPUT"]⟩,
    ⟨Backend.v4, ["-t", "filter", "-F", "OUTPUT"]⟩,
    ⟨Backend.v4, ["-t", "filter", "-F", "INPUT"]⟩,
    ⟨Backend.v6, ["-P", "OUTPUT", "ACCEPT"]⟩,
    ⟨Backend.v6, ["-P", "INPUT", "ACCEPT"]⟩,
    ⟨Backend.v6, ["-P", "FORWARD", "ACCEPT"]⟩,
    ⟨Backend.v6, ["-t", "nat", "-F", "OUTPUT"]⟩,
    ⟨Backend.v6, ["-t", "filter", "-F", "OUTPUT"]⟩,
    ⟨Backend.v6, ["-t", "filter", "-F", "INPUT"]⟩,
    ⟨Backend.v4legacy, ["-t", "nat", "-F", "OUTPUT"]⟩,
    ⟨Backend.v4legacy, ["-t", "filter", "-F", "OUTPUT"]⟩,
    ⟨Backend.v6legacy, ["-t", "nat", "-F", "OUTPUT"]⟩,
    ⟨Backend.v6legacy, ["-t", "filter", "-F", "OUTPUT"]⟩ ]

/-- Invocation sequence of `apply_rules` (src/iptables.rs lines 13-88),
verbatim from the source: a full flush first, then the IPv4 NAT and filter
rules (DNSPort 9061, TransPort 9051 inlined from the two local bindings),
then the best-effort IPv6 lockdown. -/
def apply_rules_trace (tor_user : String) : List Cmd :=
  flush_rules_trace ++
  [ ⟨Backend.v4, ["-t", "nat", "-A", "OUTPUT", "-m", "state", "--state", "ESTABLISHED", "-j", "RETURN"]⟩,
    ⟨Backend.v4, ["-t", "nat", "-A", "OUTPUT", "-m", "owner", "--uid-owner", tor_user, "-j", "RETURN"]⟩,
    ⟨Backend.v4, ["-t", "nat", "-A", "OUTPUT", "-p", "udp", "--dport", "53", "-j", "REDIRECT", "--to-ports", "9061"]⟩,
    ⟨Backend.v4, ["-t", "nat", "-A", "OUTPUT", "-p", "tcp", "--dport", "53", "-j", "REDIRECT", "--to-ports", "9061"]⟩,
    ⟨Backend.v4, ["-t", "nat", "-A", "OUTPUT", "-d", "127.0.0.0/8", "-j", "RETURN"]⟩,
    ⟨Backend.v4, ["-t", "nat", "-A", "OUTPUT", "-p", "tcp", "-j", "REDIRECT", "--to-ports", "9051"]⟩,
    ⟨Backend.v4, ["-P", "OUTPUT", "DROP"]⟩,
    ⟨Backend.v4, ["-A", "OUTPUT", "-o", "lo", "-j", "ACCEPT"]⟩,
    ⟨Backend.v4, ["-A", "OUTPUT", "-d", "127.0.0.0/8", "-j", "ACCEPT"]⟩,
    ⟨Backend.v4, ["-A", "OUTPUT", "-m", "state", "--state", "ESTABLISHED,RELATED", "-j", "ACCEPT"]⟩,
    ⟨Backend.v4, ["-A", "OUTPUT", "-m", "owner", "--uid-owner", tor_user, "-j", "ACCEPT"]⟩,
    ⟨Backend.v4, ["-A", "OUTPUT", "-p", "udp", "--dport", "53", "-j", "DROP"]⟩,
    ⟨Backend.v4, ["-A", "OUTPUT", "-p", "tcp", "--dport", "53", "-j", "DROP"]⟩,
    ⟨Backend.v4, ["-A", "OUTPUT", "-p", "tcp", "--dport", "853", "-j", "DROP"]⟩,
    ⟨Backend.v4, ["-A", "OUTPUT", "-p", "udp", "--dport", "443", "-j", "DROP"]⟩,
    ⟨Backend.v4, ["-A", "OUTPUT", "-j", "DROP"]⟩,
    ⟨Backend.v6, ["-P", "OUTPUT", "DROP"]⟩,
    ⟨Backend.v6, ["-P", "INPUT", "DROP"]⟩,
    ⟨Backend.v6, ["-P", "FORWARD", "DROP"]⟩,
    ⟨Backend.v6, ["-A", "OUTPUT", "-o", "lo", "-j", "ACCEPT"]⟩,
    ⟨Backend.v6, ["-A", "INPUT", "-i", "lo", "-j", "ACCEPT"]⟩,
    ⟨Backend.v6, ["-A", "OUTPUT", "-m", "state", "--state", "ESTABLISHED,RELATED", "-j", "ACCEPT"]⟩,
    ⟨Backend.v6, ["-A", "INPUT", "-m", "state", "--state", "ESTABLISHED,RELATED", "-j", "ACCEPT"]⟩,
    ⟨Backend.v6, ["-A", "OUTPUT", "-j", "DROP"]⟩,
    ⟨Backend.v6, ["-A", "INPUT", "-j", "DROP"]⟩ ]

/-! ### Outcome model of the rule-apply loop (src/iptables.rs lines 120-142) -/

/-- Outcome of spawning one external firewall command: clean exit, non-zero
exit, or a spawn error with its message. -/
inductive CmdOutcome
  | success
  | exitFailure
  | spawnErr (msg : String)
deriving DecidableEq

/-- `run_iptables` (src/iptables.rs lines 120-133): returns `Ok` in every
case; a non-zero exit or a spawn error is only logged to stderr. -/
def run_iptables (env : List String → CmdOutcome) (args : List String) :
    Except String Unit × List String :=
  match env args with
  | CmdOutcome.success => (Except.ok (), [])
  | CmdOutcome.exitFailure => (Except.ok (), ["[!] iptables " ++ String.intercalate " " args ++ " failed"])
  | CmdOutcome.spawnErr e => (Except.ok (), ["[!] Failed to run iptables: " ++ e])

/-- `run_ip6tables` (src/iptables.rs lines 135-142): returns `Ok` in every
case and logs nothing. -/
def run_ip6tables (env : List String → CmdOutcome) (args : List String) :
    Except String Unit × List String :=
  match env args with
  | _ => (Except.ok (), [])

/-- Result and log of one invocation of the trace: v4 goes through
`run_iptables`, v6 through `run_ip6tables`; the legacy backends are spawned
directly with the status ignored and nothing logged. -/
def runCmd (env : List String → CmdOutcome) (c : Cmd) :
    Except String Unit × List String :=
  match c.backend with
  | Backend.v4 => run_iptables env c.args
  | Backend.v6 => run_ip6tables env c.args
  | Backend.v4legacy => (Except.ok (), [])
  | Backend.v6legacy => (Except.ok (), [])

/-- Sequence a command list with the `?` short-circuit of the source: an
`Err` from one invocation would abort the rest. -/
def execCmds (env : List String → CmdOutcome) : List Cmd → Except String Unit × List String
  | [] => (Except.ok (), [])
  | c :: cs =>
    match runCmd env c with
    | (Except.error e, ls) => (Except.error e, ls)
    | (Except.ok _, ls) =>
      let r := execCmds env cs
      (r.1, ls ++ r.2)

/-- Result and accumulated stderr log of a whole `apply_rules` call under a
per-invocation outcome assignment. -/
def apply_rules_run (env : List String → CmdOutcome) (tor_user : String) :
    Except String Unit × List String :=
  execCmds env (apply_rules_trace tor_user)

/-! ### Engine world model (src/engine.rs) -/

/-- State of a path in the modelled filesystem: absent, a regular file with
its content, or a symlink to a target path. -/
inductive FileSt
  | absent
  | reg (content : String)
  | link (target : String)
deriving DecidableEq

/-- One desktop alert handed to the notification sink. -/
structure Notif where
  title : String
  body : String
  urgency : String
deriving DecidableEq

/-- The observable machine state the engine manipulates: the files at the
fixed paths of src/engine.rs, the read-only resolver stub sources, the
supervised tor process, resolver-service flags, the firewall state with the
trace of firewall invocations issued, and the alert trace. -/
structure World where
  resolvConf : FileSt
  resolvImmutable : Bool
  resolvBackup : Option String
  torPidFile : Option String
  torrcFile : Option String
  dataDir : Bool
  runSystemdResolv : Option String
  runNMResolv : Option String
  stubResolv : Option String
  torProc : Option Nat
  resolvedMasked : Bool
  resolvedRunning : Bool
  dnsmasqMasked : Bool
  dnsmasqRunning : Bool
  nmDispatcherRunning : Bool
  routeLocalnet : Bool
  monitorSpawned : Bool
  fw : FwState
  fwCmds : List Cmd
  notifs : List Notif
deriving DecidableEq

/-- Nondeterministic facts of one run: caller uid, success of each fallible
step, the pid the spawn yields, and whether tor survives the fixed
bootstrap wait. -/
structure Env where
  uid : Nat
  createDirOk : Bool
  chownOk : Bool
  writeTorrcOk : Bool
  spawnOk : Bool
  torPid : Nat
  writePidOk : Bool
  torAliveAfterWait : Bool
  writeResolvOk : Bool
deriving DecidableEq

/-- The relay's run-as identity (`TOR_USER` in src/engine.rs). -/
def TOR_USER : String := "tor"

/-- Exact replacement content written over /etc/resolv.conf by
`take_dns_ownership`. -/
def huliosResolvConf : String :=
  "# HULIOS - Tor DNS\n# DO NOT MODIFY - This file is managed by HULIOS\n# All DNS queries are routed through Tor\nnameserver 127.0.0.1\noptions edns0 trust-ad ndots:0\n"

/-- Exact torrc content written by `start` (data dir inlined). -/
def torrcContent : String :=
  "RunAsDaemon 1\nUser tor\nDataDirectory /tmp/hulios_tor_data\nLog notice file /tmp/tor_debug.log\nSOCKSPort 9050\nTransPort 9051\nDNSPort 9061\nVirtualAddrNetwork 10.66.0.0/255.255.0.0\nAutomapHostsOnResolve 1\n"

/-- `stop_tor_service` (src/engine.rs lines 416-421): service stop plus
kill-by-name (the supervised process dies), then the pid marker is
removed.  Always returns `Ok`. -/
def stop_tor_service (w : World) : World :=
  { w with torProc := none, torPidFile := none }

/-- `neutralize_system_resolver` (src/engine.rs lines 289-318): masks and
stops systemd-resolved (plus a kill-by-name sweep), stops the
NetworkManager dispatcher, and stops and masks dnsmasq; every sub-step is
best-effort. -/
def neutralize_system_resolver (w : World) : World :=
  { w with resolvedMasked := true, resolvedRunning := false,
           nmDispatcherRunning := false,
           dnsmasqRunning := false, dnsmasqMasked := true }

/-- `restore_system_resolver` (src/engine.rs lines 321-341): unmasks
systemd-resolved and dnsmasq, then starts systemd-resolved and the
NetworkManager dispatcher (dnsmasq is not started). -/
def restore_system_resolver (w : World) : World :=
  { w with resolvedMasked := false, dnsmasqMasked := false,
           resolvedRunning := true, nmDispatcherRunning := true }

/-- Content read through `cp -L` from a file state: a symlink is
dereferenced (the only link target in the model is the resolver stub). -/
def readableContent (w : World) (f : FileSt) : Option String :=
  match f with
  | FileSt.reg c => some c
  | FileSt.link _ => w.stubResolv
  | FileSt.absent => none

/-- First existing file among the backup-source priority list of
`take_dns_ownership`: the systemd resolver file, the NetworkManager
resolver file, then /etc/resolv.conf itself. -/
def backupSource (w : World) : Option String :=
  match w.runSystemdResolv with
  | some c => some c
  | none =>
    match w.runNMResolv with
    | some c => some c
    | none => readableContent w w.resolvConf

/-- `take_dns_ownership` (src/engine.rs lines 344-386): clear the immutable
attribute, copy the first existing priority source to the backup path only
when no backup exists, remove /etc/resolv.conf, write the fixed
replacement (the only fallible step), then set the immutable attribute. -/
def take_dns_ownership (w : World) (env : Env) : World × Except String Unit :=
  let w1 := { w with resolvImmutable := false }
  let w2 :=
    match w1.resolvBackup with
    | none =>
      match backupSource w1 with
      | some c => { w1 with resolvBackup := some c }
      | none => w1
    | some _ => w1
  let w3 := { w2 with resolvConf := FileSt.absent }
  if env.writeResolvOk then
    ({ w3 with resolvConf := FileSt.reg huliosResolvConf, resolvImmutable := true }, Except.ok ())
  else
    (w3, Except.error "Failed to write resolv.conf")

/-- `restore_dns` (src/engine.rs lines 389-410): clear the immutable
attribute; if a backup exists, put its content back and delete the backup,
otherwise symlink /etc/resolv.conf to the native stub; finally remove the
pid marker.  Always returns `Ok`. -/
def restore_dns (w : World) : World :=
  let w1 := { w with resolvImmutable := false }
  let w2 :=
    match w1.resolvBackup with
    | some b => { w1 with resolvConf := FileSt.reg b, resolvBackup := none }
    | none => { w1 with resolvConf := FileSt.link "/run/systemd/resolve/stub-resolv.conf" }
  { w2 with torPidFile := none }

/-- `is_tor_running` (src/engine.rs lines 153-168) as a pure function of
the pid-file content, the `kill -0` oracle and the `pgrep -x tor` oracle:
when the file exists and its trimmed content parses as an i32, the result
is exactly the `kill -0` check; otherwise the name lookup decides. -/
def is_tor_running (pid_file : Option String) (killOk : Int → Bool) (pgrepTor : Bool) : Bool :=
  match pid_file with
  | some pid_str =>
    match parseI32 (strTrim pid_str) with
    | some pid => killOk pid
    | none => pgrepTor
  | none => pgrepTor

/-- The `kill -0` oracle of a world: succeeds exactly on the pid of the
live supervised process. -/
def killCheck (w : World) : Int → Bool :=
  fun pid =>
    match w.torProc with
    | some p => pid == Int.ofNat p
    | none => false

/-- The `pgrep -x tor` oracle of a world: a process named tor exists. -/
def pgrepTorCheck (w : World) : Bool :=
  match w.torProc with
  | some _ => true
  | none => false

/-- The engine's liveness check, instantiated at a world. -/
def is_tor_running_w (w : World) : Bool :=
  is_tor_running w.torPidFile (killCheck w) (pgrepTorCheck w)

/-- Effect of `iptables::flush_rules` on a world: run the flush trace on
the firewall state and record the invocations. -/
def flushFwW (w : World) : World :=
  { w with fw := fwRun w.fw flush_rules_trace, fwCmds := w.fwCmds ++ flush_rules_trace }

/-- Effect of `iptables::apply_rules` on a world: run the apply trace
(which begins with the flush) and record the invocations. -/
def applyFwW (w : World) (tor_user : String) : World :=
  { w with fw := fwRun w.fw (apply_rules_trace tor_user),
           fwCmds := w.fwCmds ++ apply_rules_trace tor_user }

/-- `send_notification` (src/engine.rs lines 197-253): best-effort one-way
alert sink, modelled as appending to the alert trace. -/
def send_notification (w : World) (title body urgency : String) : World :=
  { w with notifs := w.notifs ++ [⟨title, body, urgency⟩] }

/-- `start` (src/engine.rs lines 18-89): root check; stop any stale tor;
neutralize the native resolver; enable route_localnet; recreate the data
directory; chown it; write the torrc; spawn tor; persist the pid; fixed
bootstrap wait (during which tor may die); liveness check with a critical
alert and an error on failure; apply the firewall rules; take DNS
ownership; success alert; spawn the background monitor. -/
def start (w : World) (env : Env) : World × Except String Unit :=
  if env.uid ≠ 0 then (w, Except.error "HULIOS must be run as root.")
  else
    let w1 := stop_tor_service w
    let w2 := neutralize_system_resolver w1
    let w3 := { w2 with routeLocalnet := true }
    let w4 := { w3 with dataDir := false }
    if env.createDirOk = false then (w4, Except.error "Failed to create data dir")
    else
      let w5 := { w4 with dataDir := true }
      if env.chownOk = false then (w5, Except.error "Failed to chown data dir")
      else if env.writeTorrcOk = false then (w5, Except.error "failed to write torrc")
      else
        let w6 := { w5 with torrcFile := some torrcContent }
        if env.spawnOk = false then (w6, Except.error "Failed to start tor process")
        else
          let w7 := { w6 with torProc := some env.torPid }
          if env.writePidOk = false then (w7, Except.error "failed to write pid file")
          else
            let w8 := { w7 with torPidFile := some (toString env.torPid) }
            let w9 := { w8 with torProc := if env.torAliveAfterWait then w8.torProc else none }
            if is_tor_running_w w9 = false then
              (send_notification w9 "HULIOS Error" "Tor failed to start! Check /tmp/tor_debug.log" "critical",
               Except.error "Tor process died during startup")
            else
              let w10 := applyFwW w9 TOR_USER
              match take_dns_ownership w10 env with
              | (w11, Except.error e) => (w11, Except.error e)
              | (w11, Except.ok _) =>
                let w12 := send_notification w11 "HULIOS Started" "All traffic now routed through Tor 🧅" "normal"
                ({ w12 with monitorSpawned := true }, Except.ok ())

/-- `stop` (src/engine.rs lines 91-112): root check; flush the firewall;
stop tor; restore DNS; restore the native resolver; success alert. -/
def stop (w : World) (env : Env) : World × Except String Unit :=
  if env.uid ≠ 0 then (w, Except.error "HULIOS must be run as root.")
  else
    let w1 := flushFwW w
    let w2 := stop_tor_service w1
    let w3 := restore_dns w2
    let w4 := restore_system_resolver w3
    (send_notification w4 "HULIOS Stopped" "Normal network restored" "normal", Except.ok ())

/-- `restart` (src/engine.rs lines 114-134): root check; quiet teardown
(flush firewall, stop tor, restore DNS — with no alert); fixed pause; full
`start` (which sends its own alert); then the restart-specific alert. -/
def restart (w : World) (env : Env) : World × Except String Unit :=
  if env.uid ≠ 0 then (w, Except.error "HULIOS must be run as root.")
  else
    let w1 := flushFwW w
    let w2 := stop_tor_service w1
    let w3 := restore_dns w2
    match start w3 env with
    | (w4, Except.error e) => (w4, Except.error e)
    | (w4, Except.ok _) =>
      (send_notification w4 "HULIOS Restarted" "Tor connection refreshed 🔄" "normal", Except.ok ())

/-- The teardown phase that `restart` actually performs before the pause
and the fresh `start`: flush firewall, stop tor, restore DNS. -/
def restartQuietTeardown (w : World) : World :=
  restore_dns (stop_tor_service (flushFwW w))

/-- Modelled from the spec: the quiet teardown the spec ascribes to
reengage — the same steps as the Disengage transition (flush firewall,
stop relay, restore DNS, restore native resolver), differing only in that
no alert is emitted. -/
def specQuietTeardown (w : World) : World :=
  restore_system_resolver (restore_dns (stop_tor_service (flushFwW w)))

/-! ### Shared helper definitions and lemmas -/

/-- Chain with policy ACCEPT and no rules. -/
def chainA : Chain := ⟨"ACCEPT", []⟩

/-- Backend tables with all chains at policy ACCEPT and no rules. -/
def tablesA : FwTables := ⟨chainA, chainA, chainA, chainA⟩

/-- Firewall state with every chain at policy ACCEPT and no rules. -/
def fwA : FwState := ⟨tablesA, tablesA, tablesA, tablesA⟩

/-- Concrete pre-engage world for counterexamples: /etc/resolv.conf holds
"orig" while the systemd resolver file /run/systemd/resolve/resolv.conf —
the first entry of the backup-source priority list — holds "sysd". -/
def w0x : World :=
  { resolvConf := FileSt.reg "orig", resolvImmutable := false, resolvBackup := none,
    torPidFile := none, torrcFile := none, dataDir := false,
    runSystemdResolv := some "sysd", runNMResolv := none, stubResolv := none,
    torProc := none, resolvedMasked := false, resolvedRunning := true,
    dnsmasqMasked := false, dnsmasqRunning := false, nmDispatcherRunning := true,
    routeLocalnet := false, monitorSpawned := false,
    fw := fwA, fwCmds := [], notifs := [] }

/-- Like `w0x` but without the run-path resolver candidates, so the backup
source is /etc/resolv.conf itself. -/
def wPlain : World := { w0x with runSystemdResolv := none }

/-- All-success environment: root caller, every fallible step succeeds,
tor gets pid 4242 and survives the bootstrap wait. -/
def env0x : Env :=
  { uid := 0, createDirOk := true, chownOk := true, writeTorrcOk := true,
    spawnOk := true, torPid := 4242, writePidOk := true,
    torAliveAfterWait := true, writeResolvOk := true }

/-- Like `env0x` but tor dies during the bootstrap wait. -/
def envDead : Env := { env0x with torAliveAfterWait := false }

/-- Like `env0x` but writing the pid marker file fails. -/
def envNoPid : Env := { env0x with writePidOk := false }

/-- Backup content after `take_dns_ownership`: kept if already present,
otherwise the first existing priority source (if any). -/
def tdBackup (w : World) : Option String :=
  match w.resolvBackup with
  | none =>
    match backupSource w with
    | some c => some c
    | none => none
  | some b => some b

/-- Characterization of a successful `take_dns_ownership`: the immutable
flag is set, /etc/resolv.conf holds the fixed replacement, and the backup
is `tdBackup`. -/
theorem take_dns_ownership_ok (w : World) (env : Env) (h : env.writeResolvOk = true) :
    take_dns_ownership w env =
      ({ w with resolvImmutable := true, resolvConf := FileSt.reg huliosResolvConf,
                resolvBackup := tdBackup w }, Except.ok ()) := by
  obtain ⟨rc, ri, rb, tpf, trc, dd, rs, rn, stub, tp, a1, a2, a3, a4, a5, a6, a7, fws, fwc, nts⟩ := w
  cases rb <;> cases rs <;> cases rn <;> cases rc <;> cases stub <;>
    simp [take_dns_ownership, tdBackup, backupSource, readableContent, h]

/-- When no tor process is alive, the liveness check is false whatever the
pid file holds: a parseable pid fails the `kill -0` check and any other
content falls back to the (failing) name lookup. -/
theorem is_tor_running_w_of_none (v : World) (h : v.torProc = none) :
    is_tor_running_w v = false := by
  cases hpf : v.torPidFile with
  | none => simp [is_tor_running_w, is_tor_running, pgrepTorCheck, hpf, h]
  | some s =>
    cases hp : parseI32 (strTrim s) with
    | none => simp [is_tor_running_w, is_tor_running, pgrepTorCheck, hpf, hp, h]
    | some pid => simp [is_tor_running_w, is_tor_running, killCheck, hpf, hp, h]

/-- Every single invocation of the rule-apply loop returns `Ok`, whatever
the external outcome. -/
theorem runCmd_fst (env : List String → CmdOutcome) (c : Cmd) :
    (runCmd env c).1 = Except.ok () := by
  obtain ⟨b, args⟩ := c
  cases b <;> cases h : env args <;> simp [runCmd, run_iptables, run_ip6tables, h]

/-- The sequencing of the rule-apply loop never short-circuits: it returns
`Ok` and accumulates the per-invocation logs of the entire list. -/
theorem execCmds_eq (env : List String → CmdOutcome) (cmds : List Cmd) :
    execCmds env cmds =
      (Except.ok (), cmds.foldr (fun c acc => (runCmd env c).2 ++ acc) []) := by
  induction cmds with
  | nil => rfl
  | cons c cs ih =>
    have h1 : (runCmd env c).1 = Except.ok () := runCmd_fst env c
    rcases hr : runCmd env c with ⟨r1, ls⟩
    rw [hr] at h1
    simp only at h1
    subst h1
    simp [execCmds, hr, ih]

/-! ### Claim theorems -/

/-- C1: `apply_rules` first performs the full flush and then emits the
IPv4 rules in exactly the specified order — NAT/OUTPUT established-RETURN,
relay-owner RETURN, UDP-53 and TCP-53 redirects to the DNS port 9061,
loopback-destination RETURN, all-remaining-TCP redirect to the
transparent-proxy port 9051; then FILTER/OUTPUT default policy DROP before
any ACCEPT rule, followed by the loopback, loopback-destination,
established/related and relay-owner ACCEPT rules, then the explicit drops
for ports 53 (both protocols), 853 (TCP) and 443 (UDP), then the final
drop-all — followed only by the best-effort IPv6 lockdown. -/
theorem c1_apply_rules_order (tor_user : String) :
    apply_rules_trace tor_user =
      flush_rules_trace ++
      [ ⟨Backend.v4, ["-t", "nat", "-A", "OUTPUT", "-m", "state", "--state", "ESTABLISHED", "-j", "RETURN"]⟩,
        ⟨Backend.v4, ["-t", "nat", "-A", "OUTPUT", "-m", "owner", "--uid-owner", tor_user, "-j", "RETURN"]⟩,
        ⟨Backend.v4, ["-t", "nat", "-A", "OUTPUT", "-p", "udp", "--dport", "53", "-j", "REDIRECT", "--to-ports", "9061"]⟩,
        ⟨Backend.v4, ["-t", "nat", "-A", "OUTPUT", "-p", "tcp", "--dport", "53", "-j", "REDIRECT", "--to-ports", "9061"]⟩,
        ⟨Backend.v4, ["-t", "nat", "-A", "OUTPUT", "-d", "127.0.0.0/8", "-j", "RETURN"]⟩,
        ⟨Backend.v4, ["-t", "nat", "-A", "OUTPUT", "-p", "tcp", "-j", "REDIRECT", "--to-ports", "9051"]⟩,
        ⟨Backend.v4, ["-P", "OUTPUT", "DROP"]⟩,
        ⟨Backend.v4, ["-A", "OUTPUT", "-o", "lo", "-j", "ACCEPT"]⟩,
        ⟨Backend.v4, ["-A", "OUTPUT", "-d", "127.0.0.0/8", "-j", "ACCEPT"]⟩,
        ⟨Backend.v4, ["-A", "OUTPUT", "-m", "state", "--state", "ESTABLISHED,RELATED", "-j", "ACCEPT"]⟩,
        ⟨Backend.v4, ["-A", "OUTPUT", "-m", "owner", "--uid-owner", tor_user, "-j", "ACCEPT"]⟩,
        ⟨Backend.v4, ["-A", "OUTPUT", "-p", "udp", "--dport", "53", "-j", "DROP"]⟩,
        ⟨Backend.v4, ["-A", "OUTPUT", "-p", "tcp", "--dport", "53", "-j", "DROP"]⟩,
        ⟨Backend.v4, ["-A", "OUTPUT", "-p", "tcp", "--dport", "853", "-j", "DROP"]⟩,
        ⟨Backend.v4, ["-A", "OUTPUT", "-p", "udp", "--dport", "443", "-j", "DROP"]⟩,
        ⟨Backend.v4, ["-A", "OUTPUT", "-j", "DROP"]⟩,
        ⟨Backend.v6, ["-P", "OUTPUT", "DROP"]⟩,
        ⟨Backend.v6, ["-P", "INPUT", "DROP"]⟩,
        ⟨Backend.v6, ["-P", "FORWARD", "DROP"]⟩,
        ⟨Backend.v6, ["-A", "OUTPUT", "-o", "lo", "-j", "ACCEPT"]⟩,
        ⟨Backend.v6, ["-A", "INPUT", "-i", "lo", "-j", "ACCEPT"]⟩,
        ⟨Backend.v6, ["-A", "OUTPUT", "-m", "state", "--state", "ESTABLISHED,RELATED", "-j", "ACCEPT"]⟩,
        ⟨Backend.v6, ["-A", "INPUT", "-m", "state", "--state", "ESTABLISHED,RELATED", "-j", "ACCEPT"]⟩,
        ⟨Backend.v6, ["-A", "OUTPUT", "-j", "DROP"]⟩,
        ⟨Backend.v6, ["-A", "INPUT", "-j", "DROP"]⟩ ] := by
  rfl

/-- C5: `apply_rules` is idempotent on the effective firewall rule set —
for every starting firewall state, running its invocation trace twice
yields exactly the state of running it once, because each run begins with
the full flush. -/
theorem c5_apply_rules_idempotent (tor_user : String) (s : FwState) :
    fwRun (fwRun s (apply_rules_trace tor_user)) (apply_rules_trace tor_user) =
      fwRun s (apply_rules_trace tor_user) := by
  simp [fwRun, apply_rules_trace, flush_rules_trace, applyCmd, applyArgs, splitTable,
        FwTables.update, Chain.setPolicy, Chain.append, Chain.clear]

/-- C9: whatever outcome each individual rule-apply invocation has, the
whole `apply_rules` run returns success, processes the entire invocation
sequence accumulating each invocation's failure log, and no single
`run_iptables` call ever propagates an error. -/
theorem c9_apply_rules_best_effort (env : List String → CmdOutcome) (tor_user : String) :
    apply_rules_run env tor_user =
      (Except.ok (),
       (apply_rules_trace tor_user).foldr (fun c acc => (runCmd env c).2 ++ acc) []) ∧
    (∀ args : List String, (run_iptables env args).1 = Except.ok ()) := by
  refine ⟨execCmds_eq env (apply_rules_trace tor_user), ?_⟩
  intro args
  cases h : env args <;> simp [run_iptables, h]

/-- C2 counterexample: the claim that disengage restores the resolution
config byte-for-byte to its pre-engage content fails on the code.  In the
concrete world `w0x`, /etc/resolv.conf holds "orig" before engage, but the
backup step of `take_dns_ownership` prefers the systemd resolver file
/run/systemd/resolve/resolv.conf ("sysd"), so after a successful engage
followed by disengage the file holds "sysd", not the pre-engage bytes. -/
theorem c2_counterexample :
    w0x.resolvConf = FileSt.reg "orig" ∧
    (start w0x env0x).2 = Except.ok () ∧
    (stop (start w0x env0x).1 env0x).2 = Except.ok () ∧
    (stop (start w0x env0x).1 env0x).1.resolvConf = FileSt.reg "sysd" ∧
    (stop (start w0x env0x).1 env0x).1.resolvConf ≠ FileSt.reg "orig" := by
  refine ⟨rfl, rfl, rfl, by decide, by decide⟩

/-- C2 (amended): for every engaged state reached by a successful engage
from a state with no pre-existing backup in which the run-path resolver
candidates are absent — so that the backup source is the resolution config
itself, a regular file — disengage restores every observable side effect
of engage: both families' default policies are reset to ACCEPT on INPUT,
OUTPUT and FORWARD, the resolution config is restored byte-for-byte to its
pre-engage content, the backup is consumed and deleted, systemd-resolved
and dnsmasq are unmasked and systemd-resolved (with the NetworkManager
dispatcher) is restarted, the relay process is stopped, and the pid marker
file is absent. -/
theorem c2_engage_disengage_inverse (w : World) (c : String) (env : Env)
    (hw1 : w.resolvBackup = none) (hw2 : w.runSystemdResolv = none) (hw3 : w.runNMResolv = none)
    (hw4 : w.resolvConf = FileSt.reg c)
    (h0 : env.uid = 0) (h1 : env.createDirOk = true) (h2 : env.chownOk = true)
    (h3 : env.writeTorrcOk = true) (h4 : env.spawnOk = true) (h5 : env.writePidOk = true)
    (h6 : env.torAliveAfterWait = true) (h7 : env.writeResolvOk = true)
    (hp : parseI32 (strTrim (toString env.torPid)) = some (Int.ofNat env.torPid)) :
    (start w env).2 = Except.ok () ∧
    (stop (start w env).1 env).2 = Except.ok () ∧
    (stop (start w env).1 env).1.resolvConf = FileSt.reg c ∧
    (stop (start w env).1 env).1.resolvBackup = none ∧
    (stop (start w env).1 env).1.torProc = none ∧
    (stop (start w env).1 env).1.torPidFile = none ∧
    (stop (start w env).1 env).1.resolvedMasked = false ∧
    (stop (start w env).1 env).1.resolvedRunning = true ∧
    (stop (start w env).1 env).1.dnsmasqMasked = false ∧
    (stop (start w env).1 env).1.nmDispatcherRunning = true ∧
    (stop (start w env).1 env).1.fw.v4.filterInput.policy = "ACCEPT" ∧
    (stop (start w env).1 env).1.fw.v4.filterOutput.policy = "ACCEPT" ∧
    (stop (start w env).1 env).1.fw.v4.filterForward.policy = "ACCEPT" ∧
    (stop (start w env).1 env).1.fw.v6.filterInput.policy = "ACCEPT" ∧
    (stop (start w env).1 env).1.fw.v6.filterOutput.policy = "ACCEPT" ∧
    (stop (start w env).1 env).1.fw.v6.filterForward.policy = "ACCEPT" := by
  simp [start, stop, take_dns_ownership, backupSource, readableContent, restore_dns,
        stop_tor_service, neutralize_system_resolver, restore_system_resolver,
        send_notification, applyFwW, flushFwW, is_tor_running_w, is_tor_running,
        killCheck, pgrepTorCheck,
        hw1, hw2, hw3, hw4, h0, h1, h2, h3, h4, h5, h6, h7, hp,
        fwRun, apply_rules_trace, flush_rules_trace, applyCmd, applyArgs, splitTable,
        FwTables.update, Chain.setPolicy, Chain.append, Chain.clear, TOR_USER]

/-- C2 witness: the amended inversion property evaluated at the concrete
world `wPlain` (resolv.conf "orig", no run-path candidates, no backup) and
the all-success environment. -/
theorem c2_witness :
    wPlain.resolvBackup = none ∧
    wPlain.resolvConf = FileSt.reg "orig" ∧
    ((start wPlain env0x).2 = Except.ok () ∧
     (stop (start wPlain env0x).1 env0x).2 = Except.ok () ∧
     (stop (start wPlain env0x).1 env0x).1.resolvConf = FileSt.reg "orig" ∧
     (stop (start wPlain env0x).1 env0x).1.resolvBackup = none ∧
     (stop (start wPlain env0x).1 env0x).1.torProc = none ∧
     (stop (start wPlain env0x).1 env0x).1.torPidFile = none ∧
     (stop (start wPlain env0x).1 env0x).1.resolvedMasked = false ∧
     (stop (start wPlain env0x).1 env0x).1.resolvedRunning = true ∧
     (stop (start wPlain env0x).1 env0x).1.dnsmasqMasked = false ∧
     (stop (start wPlain env0x).1 env0x).1.nmDispatcherRunning = true ∧
     (stop (start wPlain env0x).1 env0x).1.fw.v4.filterInput.policy = "ACCEPT" ∧
     (stop (start wPlain env0x).1 env0x).1.fw.v4.filterOutput.policy = "ACCEPT" ∧
     (stop (start wPlain env0x).1 env0x).1.fw.v4.filterForward.policy = "ACCEPT" ∧
     (stop (start wPlain env0x).1 env0x).1.fw.v6.filterInput.policy = "ACCEPT" ∧
     (stop (start wPlain env0x).1 env0x).1.fw.v6.filterOutput.policy = "ACCEPT" ∧
     (stop (start wPlain env0x).1 env0x).1.fw.v6.filterForward.policy = "ACCEPT") :=
  ⟨rfl, rfl,
   c2_engage_disengage_inverse wPlain "orig" env0x rfl rfl rfl rfl rfl rfl rfl rfl rfl
     rfl rfl rfl (by decide)⟩

/-- C3: when the relay is not alive after the fixed bootstrap wait, engage
emits exactly one critical alert, returns the startup-death error, and
performs no firewall invocation and no DNS takeover: firewall state and
trace, the resolution config, its immutable flag and the backup are all
untouched. -/
theorem c3_relay_dead_aborts (w : World) (env : Env)
    (h0 : env.uid = 0) (h1 : env.createDirOk = true) (h2 : env.chownOk = true)
    (h3 : env.writeTorrcOk = true) (h4 : env.spawnOk = true) (h5 : env.writePidOk = true)
    (h6 : env.torAliveAfterWait = false) :
    (start w env).2 = Except.error "Tor process died during startup" ∧
    (start w env).1.fwCmds = w.fwCmds ∧
    (start w env).1.fw = w.fw ∧
    (start w env).1.resolvConf = w.resolvConf ∧
    (start w env).1.resolvBackup = w.resolvBackup ∧
    (start w env).1.resolvImmutable = w.resolvImmutable ∧
    (start w env).1.notifs = w.notifs ++
      [⟨"HULIOS Error", "Tor failed to start! Check /tmp/tor_debug.log", "critical"⟩] := by
  simp [start, h0, h1, h2, h3, h4, h5, h6, stop_tor_service, neutralize_system_resolver,
        send_notification, is_tor_running_w_of_none]

/-- C3 witness: the abort property evaluated at the concrete world
`wPlain` and the environment `envDead` in which tor dies during the
bootstrap wait. -/
theorem c3_witness :
    envDead.torAliveAfterWait = false ∧
    ((start wPlain envDead).2 = Except.error "Tor process died during startup" ∧
     (start wPlain envDead).1.fwCmds = wPlain.fwCmds ∧
     (start wPlain envDead).1.fw = wPlain.fw ∧
     (start wPlain envDead).1.resolvConf = wPlain.resolvConf ∧
     (start wPlain envDead).1.resolvBackup = wPlain.resolvBackup ∧
     (start wPlain envDead).1.resolvImmutable = wPlain.resolvImmutable ∧
     (start wPlain envDead).1.notifs = wPlain.notifs ++
       [⟨"HULIOS Error", "Tor failed to start! Check /tmp/tor_debug.log", "critical"⟩]) :=
  ⟨rfl, c3_relay_dead_aborts wPlain envDead rfl rfl rfl rfl rfl rfl rfl⟩

/-- C4: whenever the resolution-config backup file already exists, taking
DNS ownership leaves its content unchanged — the copy step only runs when
no backup exists — whatever the outcome of the replacement write. -/
theorem c4_backup_never_overwritten (w : World) (env : Env) (b : String)
    (h : w.resolvBackup = some b) :
    (take_dns_ownership w env).1.resolvBackup = some b := by
  cases hw : env.writeResolvOk <;> simp [take_dns_ownership, h, hw]

/-- C4 witness: the backup-preservation property evaluated at a concrete
world that already holds a backup "saved". -/
theorem c4_witness :
    ({ wPlain with resolvBackup := some "saved" } : World).resolvBackup = some "saved" ∧
    (take_dns_ownership { wPlain with resolvBackup := some "saved" } env0x).1.resolvBackup =
      some "saved" :=
  ⟨rfl, c4_backup_never_overwritten { wPlain with resolvBackup := some "saved" } env0x "saved" rfl⟩

/-- C6 counterexample: two clauses of the liveness claim fail on the code.
With the identifier file absent but a process of the expected name running,
the check returns true, not false; and with a parseable stale pid in the
file the check returns false even though the name-based lookup would
succeed, so "true whenever either check succeeds" also fails. -/
theorem c6_counterexample :
    is_tor_running none (fun _ => false) true = true ∧
    is_tor_running (some "1") (fun _ => false) true = false := by
  exact ⟨rfl, by decide⟩

/-- C6 (amended): the liveness check is total and returns a boolean; when
the identifier file is absent the name-based lookup decides (false when no
process of the expected name runs, true when one does); when the file's
trimmed content parses as an i32 the result is exactly the pid-based
`kill -0` check — so a stale pid yields false regardless of the name-based
lookup; when the content does not parse, the name-based lookup decides. -/
theorem c6_liveness_characterization (k : Int → Bool) (p : Bool) (s : String) (n : Int) :
    is_tor_running none k p = p ∧
    (parseI32 (strTrim s) = some n → is_tor_running (some s) k p = k n) ∧
    (parseI32 (strTrim s) = none → is_tor_running (some s) k p = p) := by
  refine ⟨rfl, ?_, ?_⟩ <;> intro h <;> simp [is_tor_running, h]

/-- C6 witness: the characterization evaluated at the concrete pid file
content "31337" with a failing `kill -0` oracle and a succeeding name
lookup: the check returns false. -/
theorem c6_witness :
    parseI32 (strTrim "31337") = some 31337 ∧
    is_tor_running (some "31337") (fun _ => false) true = false :=
  ⟨by decide, by
    have h := (c6_liveness_characterization (fun _ => false) true "31337" 31337).2.1 (by decide)
    simpa using h⟩

/-- C7 counterexample: a successful reengage does not net out to a single
alert.  On the concrete world `w0x` the restart run succeeds and the alert
trace holds two success alerts — the internal engage's "HULIOS Started"
followed by "HULIOS Restarted" — so exactly-one-alert is false. -/
theorem c7_counterexample :
    (restart w0x env0x).2 = Except.ok () ∧
    (restart w0x env0x).1.notifs =
      [⟨"HULIOS Started", "All traffic now routed through Tor 🧅", "normal"⟩,
       ⟨"HULIOS Restarted", "Tor connection refreshed 🔄", "normal"⟩] ∧
    (restart w0x env0x).1.notifs.length ≠ 1 := by
  exact ⟨rfl, by decide, by decide⟩

/-- C7 (amended): a successful reengage emits two success alerts, not one:
the internal engage step's alert followed by the restart-specific final
alert, which is distinguishable from the plain engage alert and comes
last. -/
theorem c7_restart_alerts (w : World) (env : Env)
    (h0 : env.uid = 0) (h1 : env.createDirOk = true) (h2 : env.chownOk = true)
    (h3 : env.writeTorrcOk = true) (h4 : env.spawnOk = true) (h5 : env.writePidOk = true)
    (h6 : env.torAliveAfterWait = true) (h7 : env.writeResolvOk = true)
    (hp : parseI32 (strTrim (toString env.torPid)) = some (Int.ofNat env.torPid)) :
    (restart w env).2 = Except.ok () ∧
    (restart w env).1.notifs = w.notifs ++
      [⟨"HULIOS Started", "All traffic now routed through Tor 🧅", "normal"⟩,
       ⟨"HULIOS Restarted", "Tor connection refreshed 🔄", "normal"⟩] ∧
    (⟨"HULIOS Restarted", "Tor connection refreshed 🔄", "normal"⟩ : Notif) ≠
      ⟨"HULIOS Started", "All traffic now routed through Tor 🧅", "normal"⟩ := by
  have main : (restart w env).2 = Except.ok () ∧
      (restart w env).1.notifs = w.notifs ++
        [⟨"HULIOS Started", "All traffic now routed through Tor 🧅", "normal"⟩,
         ⟨"HULIOS Restarted", "Tor connection refreshed 🔄", "normal"⟩] := by
    cases hrb : w.resolvBackup <;>
      simp [restart, start, take_dns_ownership_ok, restore_dns, stop_tor_service,
            neutralize_system_resolver, send_notification, applyFwW, flushFwW,
            is_tor_running_w, is_tor_running, killCheck, pgrepTorCheck,
            h0, h1, h2, h3, h4, h5, h6, h7, hp, hrb]
  exact ⟨main.1, main.2, by decide⟩

/-- C7 witness: the two-alert property evaluated at the concrete world
`wPlain` and the all-success environment. -/
theorem c7_witness :
    env0x.uid = 0 ∧
    ((restart wPlain env0x).2 = Except.ok () ∧
     (restart wPlain env0x).1.notifs = wPlain.notifs ++
       [⟨"HULIOS Started", "All traffic now routed through Tor 🧅", "normal"⟩,
        ⟨"HULIOS Restarted", "Tor connection refreshed 🔄", "normal"⟩] ∧
     (⟨"HULIOS Restarted", "Tor connection refreshed 🔄", "normal"⟩ : Notif) ≠
       ⟨"HULIOS Started", "All traffic now routed through Tor 🧅", "normal"⟩) :=
  ⟨rfl, c7_restart_alerts wPlain env0x rfl rfl rfl rfl rfl rfl rfl rfl (by decide)⟩

/-- C8 counterexample: the quiet teardown phase of reengage is not the
Disengage teardown minus the alert.  Starting from the engaged world
reached by a successful engage on `w0x`, the code's teardown leaves
systemd-resolved masked, while the spec-modelled teardown (flush, stop
relay, restore DNS, restore native resolver) unmasks it: the two teardown
results differ. -/
theorem c8_counterexample :
    (restartQuietTeardown (start w0x env0x).1).resolvedMasked = true ∧
    (specQuietTeardown (start w0x env0x).1).resolvedMasked = false ∧
    restartQuietTeardown (start w0x env0x).1 ≠ specQuietTeardown (start w0x env0x).1 := by
  set_option maxRecDepth 8192 in exact ⟨by decide, by decide, by decide⟩

/-- C8 (amended): the quiet teardown phase of reengage performs flush
firewall, stop relay and restore DNS — omitting the native-resolver
restore that the Disengage transition additionally performs — and emits no
alert; reengage is exactly that teardown followed by the pause, the full
engage and the restart alert. -/
theorem c8_restart_teardown (w : World) (env : Env) (h0 : env.uid = 0) :
    restart w env =
      (match start (restartQuietTeardown w) env with
       | (w4, Except.error e) => (w4, Except.error e)
       | (w4, Except.ok _) =>
         (send_notification w4 "HULIOS Restarted" "Tor connection refreshed 🔄" "normal",
          Except.ok ())) ∧
    (restartQuietTeardown w).notifs = w.notifs ∧
    (restartQuietTeardown w).resolvedMasked = w.resolvedMasked ∧
    (restartQuietTeardown w).resolvedRunning = w.resolvedRunning ∧
    (restartQuietTeardown w).dnsmasqMasked = w.dnsmasqMasked ∧
    (restartQuietTeardown w).nmDispatcherRunning = w.nmDispatcherRunning := by
  refine ⟨by simp [restart, restartQuietTeardown, h0], ?_⟩
  cases hrb : w.resolvBackup <;>
    simp [restartQuietTeardown, restore_dns, stop_tor_service, flushFwW, hrb]

/-- C8 witness: the amended teardown property evaluated at the concrete
world `wPlain` and the all-success environment. -/
theorem c8_witness :
    env0x.uid = 0 ∧
    (restartQuietTeardown wPlain).notifs = wPlain.notifs ∧
    (restartQuietTeardown wPlain).resolvedMasked = wPlain.resolvedMasked :=
  ⟨rfl, (c8_restart_teardown wPlain env0x rfl).2.1, (c8_restart_teardown wPlain env0x rfl).2.2.1⟩

/-- C10: if writing the pid marker file fails after the relay has been
spawned, engage returns the error at once: the spawned relay is left
running (independently of whether it would have survived the bootstrap
wait, which is never reached), no monitor is started, no marker exists,
no firewall invocation happens, DNS is not taken over, and no alert is
emitted. -/
theorem c10_pid_write_failure (w : World) (env : Env)
    (h0 : env.uid = 0) (h1 : env.createDirOk = true) (h2 : env.chownOk = true)
    (h3 : env.writeTorrcOk = true) (h4 : env.spawnOk = true) (h5 : env.writePidOk = false) :
    (start w env).2 = Except.error "failed to write pid file" ∧
    (start w env).1.torProc = some env.torPid ∧
    (start w env).1.torPidFile = none ∧
    (start w env).1.monitorSpawned = w.monitorSpawned ∧
    (start w env).1.fwCmds = w.fwCmds ∧
    (start w env).1.fw = w.fw ∧
    (start w env).1.resolvConf = w.resolvConf ∧
    (start w env).1.resolvBackup = w.resolvBackup ∧
    (start w env).1.notifs = w.notifs := by
  simp [start, stop_tor_service, neutralize_system_resolver, h0, h1, h2, h3, h4, h5]

/-- C10 witness: the pid-write-failure property evaluated at the concrete
world `wPlain` and the environment `envNoPid`. -/
theorem c10_witness :
    envNoPid.writePidOk = false ∧
    ((start wPlain envNoPid).2 = Except.error "failed to write pid file" ∧
     (start wPlain envNoPid).1.torProc = some envNoPid.torPid ∧
     (start wPlain envNoPid).1.torPidFile = none ∧
     (start wPlain envNoPid).1.monitorSpawned = wPlain.monitorSpawned ∧
     (start wPlain envNoPid).1.fwCmds = wPlain.fwCmds ∧
     (start wPlain envNoPid).1.fw = wPlain.fw ∧
     (start wPlain envNoPid).1.resolvConf = wPlain.resolvConf ∧
     (start wPlain envNoPid).1.resolvBackup = wPlain.resolvBackup ∧
     (start wPlain envNoPid).1.notifs = wPlain.notifs) :=
  ⟨rfl, c10_pid_write_failure wPlain envNoPid rfl rfl rfl rfl rfl rfl⟩

end Hulios
